import Mathlib

/-!
Shallow embedding of the pricing core of `smoking_cost_streamlit.py`
(the `get_default_yield` and `smoking_cost` functions), over exact
rationals, together with theorems settling the specification's claims.

Python's binary floats are modelled by `ℚ`; `round(x, n)` (banker's
rounding, round-half-to-even) is modelled by `pyRound2` / `pyRound1`,
`math.ceil` by `Int.ceil`, and `int(x)` (truncation toward zero) by
`pyInt`.  Division is the exact rational one; the `Option`-valued
variant `smoking_cost_checked` fails exactly where a Python division
would raise `ZeroDivisionError` (a zero divisor).
-/

namespace SmokeCalc

/-- Python `round(x)` to the nearest integer, ties to the even integer
(banker's rounding), on exact rationals. -/
def pyRoundInt (x : ℚ) : ℤ :=
  let f : ℤ := ⌊x⌋
  if x - f < 1/2 then f
  else if 1/2 < x - f then f + 1
  else if f % 2 = 0 then f else f + 1

/-- Python `round(x, 2)`. -/
def pyRound2 (x : ℚ) : ℚ := (pyRoundInt (x * 100) : ℚ) / 100

/-- Python `round(x, 1)`. -/
def pyRound1 (x : ℚ) : ℚ := (pyRoundInt (x * 10) : ℚ) / 10

/-- Python `int(x)`: truncation toward zero. -/
def pyInt (x : ℚ) : ℤ := if 0 ≤ x then ⌊x⌋ else ⌈x⌉

/-- Python `str.title()` restricted to ASCII: the first character of each
alphabetic run is uppercased, the rest lowercased.  Cosmetic only (the
"Meat Type" label); no verified property depends on it. -/
def pyTitle (s : String) : String :=
  (s.data.foldl
    (fun (acc : List Char × Bool) c =>
      if c.isAlpha then
        (acc.1 ++ [if acc.2 then c.toLower else c.toUpper], true)
      else
        (acc.1 ++ [c], false))
    ([], false)).1.asString

/-- Python `str.lower()` restricted to ASCII (the yield-table keys are all
ASCII): each character is lowercased. -/
def pyLower (s : String) : String :=
  (s.data.map Char.toLower).asString

/-- `get_default_yield` from the source: lowercase the meat type and look
it up in the fixed yield table, falling back to the `"other"` entry. -/
def get_default_yield (meat_type : String) : ℚ :=
  let m := pyLower meat_type
  if m = "brisket" then 6/10
  else if m = "pork butt" then 67/100
  else if m = "pork shoulder" then 67/100
  else if m = "ribs" then 65/100
  else if m = "beef ribs" then 6/10
  else if m = "pork ribs" then 65/100
  else if m = "chicken" then 78/100
  else if m = "turkey" then 72/100
  else if m = "tri-tip" then 8/10
  else if m = "sausage" then 9/10
  else 7/10

/-- The argument list of `smoking_cost`, as one record. -/
structure SmokingInput where
  meat_type : String
  raw_meat_weight_lbs : ℚ
  meat_price_per_lb : ℚ
  serving_size_lbs : ℚ
  smoking_hours : ℚ
  pellet_bag_cost : ℚ
  pellet_bag_weight : ℚ
  pellet_usage_per_hour_lb : ℚ
  seasoning_cost : ℚ
  misc_cost : ℚ
  markup_multiplier : ℚ
  tax_rate : ℚ
deriving DecidableEq

/-- The dictionary returned by `smoking_cost`, minus the `"Date"` field
(a wall-clock timestamp, outside the pure calculation). -/
structure SmokingResult where
  meat_type_title : String
  raw_weight : ℚ
  cooked_weight : ℚ
  yield_pct : ℚ
  servings_int : ℤ
  meat_cost_out : ℚ
  pellet_used_out : ℚ
  pellet_cost_out : ℚ
  total_cost_out : ℚ
  cost_per_serving_out : ℚ
  full_menu_price : ℚ
  menu_price_out : ℤ
  tax_rate_out : ℚ
  tax_portion_out : ℚ
  markup_out : ℚ
deriving DecidableEq

/-- Line 43: `pellet_price_per_lb = pellet_bag_cost / pellet_bag_weight`. -/
def pellet_price_per_lb (i : SmokingInput) : ℚ :=
  i.pellet_bag_cost / i.pellet_bag_weight

/-- Line 44: `pellet_used_lbs = smoking_hours * pellet_usage_per_hour_lb`. -/
def pellet_used_lbs (i : SmokingInput) : ℚ :=
  i.smoking_hours * i.pellet_usage_per_hour_lb

/-- Line 45: `electricity_cost = pellet_used_lbs * 0.25`. -/
def electricity_cost (i : SmokingInput) : ℚ :=
  pellet_used_lbs i * (0.25 : ℚ)

/-- Line 46: `pellet_cost = pellet_used_lbs * pellet_price_per_lb + electricity_cost`. -/
def pellet_cost (i : SmokingInput) : ℚ :=
  pellet_used_lbs i * pellet_price_per_lb i + electricity_cost i

/-- Line 48: `cook_yield = get_default_yield(meat_type)`. -/
def cook_yield (i : SmokingInput) : ℚ := get_default_yield i.meat_type

/-- Line 49: `cooked_meat_lbs = raw_meat_weight_lbs * cook_yield`. -/
def cooked_meat_lbs (i : SmokingInput) : ℚ :=
  i.raw_meat_weight_lbs * cook_yield i

/-- Line 50: `servings = cooked_meat_lbs / serving_size_lbs if serving_size_lbs > 0 else 0`. -/
def servings (i : SmokingInput) : ℚ :=
  if 0 < i.serving_size_lbs then cooked_meat_lbs i / i.serving_size_lbs else 0

/-- Line 52: `meat_cost = raw_meat_weight_lbs * meat_price_per_lb`. -/
def meat_cost (i : SmokingInput) : ℚ :=
  i.raw_meat_weight_lbs * i.meat_price_per_lb

/-- Line 53: `total_cost = meat_cost + pellet_cost + seasoning_cost + misc_cost`. -/
def total_cost (i : SmokingInput) : ℚ :=
  meat_cost i + pellet_cost i + i.seasoning_cost + i.misc_cost

/-- Line 54: `cost_per_serving = total_cost / servings if servings > 0 else 0`. -/
def cost_per_serving (i : SmokingInput) : ℚ :=
  if 0 < servings i then total_cost i / servings i else 0

/-- Line 56: `retail_price_per_serving = cost_per_serving * markup_multiplier`. -/
def retail_price_per_serving (i : SmokingInput) : ℚ :=
  cost_per_serving i * i.markup_multiplier

/-- Line 57: `tax_multiplier = 1 + (tax_rate / 100)`. -/
def tax_multiplier (i : SmokingInput) : ℚ := 1 + i.tax_rate / 100

/-- Line 58: `menu_price_pre_round = retail_price_per_serving * tax_multiplier`. -/
def menu_price_pre_round (i : SmokingInput) : ℚ :=
  retail_price_per_serving i * tax_multiplier i

/-- Line 59: `menu_price = math.ceil(menu_price_pre_round)`. -/
def menu_price (i : SmokingInput) : ℤ := ⌈menu_price_pre_round i⌉

/-- Line 61: `true_taxable_base = round(menu_price / tax_multiplier, 2)`. -/
def true_taxable_base (i : SmokingInput) : ℚ :=
  pyRound2 ((menu_price i : ℚ) / tax_multiplier i)

/-- Line 62: `true_tax_portion = round(menu_price - true_taxable_base, 2)`. -/
def true_tax_portion (i : SmokingInput) : ℚ :=
  pyRound2 ((menu_price i : ℚ) - true_taxable_base i)

/-- Lines 64-81: the returned record, field by field as in the source. -/
def smoking_cost (i : SmokingInput) : SmokingResult where
  meat_type_title := pyTitle i.meat_type
  raw_weight := i.raw_meat_weight_lbs
  cooked_weight := pyRound2 (cooked_meat_lbs i)
  yield_pct := pyRound1 (cook_yield i * 100)
  servings_int := pyInt (servings i)
  meat_cost_out := pyRound2 (meat_cost i)
  pellet_used_out := pyRound2 (pellet_used_lbs i)
  pellet_cost_out := pyRound2 (pellet_cost i)
  total_cost_out := pyRound2 (total_cost i)
  cost_per_serving_out := pyRound2 (cost_per_serving i)
  full_menu_price := pyRound2 ((menu_price i : ℚ) * servings i)
  menu_price_out := menu_price i
  tax_rate_out := i.tax_rate
  tax_portion_out := true_tax_portion i
  markup_out := i.markup_multiplier

/-- The documented input domain (spec sections 3 and 6): positive weights,
hours and pellet figures, non-negative costs and serving size, markup at
least 1, non-negative tax rate. -/
def ValidInput (i : SmokingInput) : Prop :=
  0 < i.raw_meat_weight_lbs ∧ 0 ≤ i.meat_price_per_lb ∧
  0 ≤ i.serving_size_lbs ∧ 0 < i.smoking_hours ∧
  0 < i.pellet_bag_cost ∧ 0 < i.pellet_bag_weight ∧
  0 < i.pellet_usage_per_hour_lb ∧ 0 ≤ i.seasoning_cost ∧
  0 ≤ i.misc_cost ∧ 1 ≤ i.markup_multiplier ∧ 0 ≤ i.tax_rate

instance (i : SmokingInput) : Decidable (ValidInput i) := by
  unfold ValidInput; infer_instance

/-- Rational division that fails (like Python) when the divisor is zero. -/
def checkedDiv (a b : ℚ) : Option ℚ :=
  if b = 0 then none else some (a / b)

/-- `smoking_cost` with every division performed strictly: each quotient
the source computes is taken through `checkedDiv`, guarded by the same
`if` conditions as in the source, and the whole computation fails if any
divisor is zero (a Python `ZeroDivisionError`). -/
def smoking_cost_checked (i : SmokingInput) : Option SmokingResult :=
  (checkedDiv i.pellet_bag_cost i.pellet_bag_weight).bind fun pellet_price =>
  let pellet_used := i.smoking_hours * i.pellet_usage_per_hour_lb
  let elec := pellet_used * (0.25 : ℚ)
  let pcost := pellet_used * pellet_price + elec
  let y := get_default_yield i.meat_type
  let cooked := i.raw_meat_weight_lbs * y
  (if 0 < i.serving_size_lbs then checkedDiv cooked i.serving_size_lbs
   else some 0).bind fun servs =>
  let mcost := i.raw_meat_weight_lbs * i.meat_price_per_lb
  let tcost := mcost + pcost + i.seasoning_cost + i.misc_cost
  (if 0 < servs then checkedDiv tcost servs else some 0).bind fun cps =>
  let retail := cps * i.markup_multiplier
  let tmult := 1 + i.tax_rate / 100
  let pre := retail * tmult
  let mp : ℤ := ⌈pre⌉
  (checkedDiv (mp : ℚ) tmult).bind fun rawbase =>
  let base := pyRound2 rawbase
  let portion := pyRound2 ((mp : ℚ) - base)
  some
    { meat_type_title := pyTitle i.meat_type
      raw_weight := i.raw_meat_weight_lbs
      cooked_weight := pyRound2 cooked
      yield_pct := pyRound1 (y * 100)
      servings_int := pyInt servs
      meat_cost_out := pyRound2 mcost
      pellet_used_out := pyRound2 pellet_used
      pellet_cost_out := pyRound2 pcost
      total_cost_out := pyRound2 tcost
      cost_per_serving_out := pyRound2 cps
      full_menu_price := pyRound2 ((mp : ℚ) * servs)
      menu_price_out := mp
      tax_rate_out := i.tax_rate
      tax_portion_out := portion
      markup_out := i.markup_multiplier }

/-- The worked example of spec section 8: brisket, 10 lbs at 3.50/lb,
0.5 lb servings, 8 hours, a 20-dollar 40 lb pellet bag used at
1.5 lbs/hour, 5 seasoning, 2 misc, markup 2, tax 11 percent. -/
def exampleInput : SmokingInput where
  meat_type := "brisket"
  raw_meat_weight_lbs := 10
  meat_price_per_lb := 3.5
  serving_size_lbs := 0.5
  smoking_hours := 8
  pellet_bag_cost := 20
  pellet_bag_weight := 40
  pellet_usage_per_hour_lb := 1.5
  seasoning_cost := 5
  misc_cost := 2
  markup_multiplier := 2
  tax_rate := 11

/-! ### Evaluation and structure lemmas for the rounding primitives -/

theorem pyRoundInt_low {x : ℚ} {n : ℤ} (h1 : ⌊x⌋ = n) (h2 : x - n < 1/2) :
    pyRoundInt x = n := by
  simp only [pyRoundInt, h1]
  rw [if_pos h2]

theorem pyRoundInt_high {x : ℚ} {n : ℤ} (h1 : ⌊x⌋ = n) (h2 : 1/2 < x - n) :
    pyRoundInt x = n + 1 := by
  simp only [pyRoundInt, h1]
  rw [if_neg (by linarith), if_pos h2]

theorem pyRoundInt_tie_even {x : ℚ} {n : ℤ} (h1 : ⌊x⌋ = n) (h2 : x - n = 1/2)
    (h3 : n % 2 = 0) : pyRoundInt x = n := by
  simp only [pyRoundInt, h1]
  rw [if_neg (by rw [h2]; norm_num), if_neg (by rw [h2]; norm_num), if_pos h3]

theorem pyRoundInt_tie_odd {x : ℚ} {n : ℤ} (h1 : ⌊x⌋ = n) (h2 : x - n = 1/2)
    (h3 : ¬ n % 2 = 0) : pyRoundInt x = n + 1 := by
  simp only [pyRoundInt, h1]
  rw [if_neg (by rw [h2]; norm_num), if_neg (by rw [h2]; norm_num), if_neg h3]

theorem pyRoundInt_intCast (n : ℤ) : pyRoundInt ((n : ℤ) : ℚ) = n := by
  refine pyRoundInt_low (Int.floor_intCast n) ?h
  norm_num

/-- `round(x, 2)` is the identity on exact multiples of `1/100`. -/
theorem pyRound2_eq_self {x : ℚ} {n : ℤ} (h : x = (n : ℚ) / 100) :
    pyRound2 x = x := by
  subst h
  have h100 : ((n : ℚ) / 100) * 100 = (n : ℚ) := by
    field_simp
  rw [pyRound2, h100, pyRoundInt_intCast]

/-- `round(x, 1)` is the identity on exact multiples of `1/10`. -/
theorem pyRound1_eq_self {x : ℚ} {n : ℤ} (h : x = (n : ℚ) / 10) :
    pyRound1 x = x := by
  subst h
  have h10 : ((n : ℚ) / 10) * 10 = (n : ℚ) := by
    field_simp
  rw [pyRound1, h10, pyRoundInt_intCast]

theorem pyRound2_idem (x : ℚ) : pyRound2 (pyRound2 x) = pyRound2 x :=
  pyRound2_eq_self rfl

theorem pyRound1_idem (x : ℚ) : pyRound1 (pyRound1 x) = pyRound1 x :=
  pyRound1_eq_self rfl

theorem pyInt_of_nonneg {x : ℚ} (h : 0 ≤ x) : pyInt x = ⌊x⌋ := if_pos h

theorem ceil_eval {x : ℚ} {n : ℤ} (h1 : (n : ℚ) - 1 < x) (h2 : x ≤ (n : ℚ)) :
    ⌈x⌉ = n :=
  Int.ceil_eq_iff.mpr ⟨by exact_mod_cast h1, by exact_mod_cast h2⟩

/-! ### Evaluation of the worked example of spec section 8 -/

theorem yield_brisket : get_default_yield "brisket" = 6/10 := by
  have h : pyLower "brisket" = "brisket" := by decide
  simp [get_default_yield, h]

theorem ex_servings : servings exampleInput = 12 := by
  rw [servings, if_pos (by norm_num [exampleInput])]
  rw [cooked_meat_lbs, cook_yield]
  simp only [exampleInput]
  rw [yield_brisket]
  norm_num

theorem ex_meat_cost : meat_cost exampleInput = 35 := by
  norm_num [meat_cost, exampleInput]

theorem ex_pellet_cost : pellet_cost exampleInput = 9 := by
  norm_num [pellet_cost, pellet_used_lbs, pellet_price_per_lb, electricity_cost,
    exampleInput]

theorem ex_total : total_cost exampleInput = 51 := by
  norm_num [total_cost, meat_cost, pellet_cost, pellet_used_lbs, pellet_price_per_lb,
    electricity_cost, exampleInput]

theorem ex_cps : cost_per_serving exampleInput = 17/4 := by
  rw [cost_per_serving, if_pos (by rw [ex_servings]; norm_num), ex_servings, ex_total]
  norm_num

theorem ex_menu : menu_price exampleInput = 10 := by
  rw [menu_price, menu_price_pre_round, retail_price_per_serving, ex_cps, tax_multiplier]
  rw [show (17:ℚ)/4 * exampleInput.markup_multiplier * (1 + exampleInput.tax_rate/100)
        = 1887/200 from by norm_num [exampleInput]]
  exact ceil_eval (by norm_num) (by norm_num)

theorem ex_base : true_taxable_base exampleInput = 901/100 := by
  rw [true_taxable_base, ex_menu, tax_multiplier]
  rw [show ((10:ℤ):ℚ) / (1 + exampleInput.tax_rate/100) = 1000/111 from by
        norm_num [exampleInput]]
  rw [pyRound2, show (1000:ℚ)/111 * 100 = 100000/111 from by norm_num]
  rw [pyRoundInt_high (show ((⌊(100000:ℚ)/111⌋ : ℤ) = 900) from by norm_num)
        (by norm_num)]
  norm_num

theorem ex_portion : true_tax_portion exampleInput = 99/100 := by
  rw [true_tax_portion, ex_menu, ex_base]
  rw [show ((10:ℤ):ℚ) - 901/100 = ((99:ℤ):ℚ)/100 from by norm_num]
  exact pyRound2_eq_self rfl

theorem ex_full : (smoking_cost exampleInput).full_menu_price = 120 := by
  show pyRound2 ((menu_price exampleInput : ℚ) * servings exampleInput) = 120
  rw [ex_menu, ex_servings]
  rw [show ((10:ℤ):ℚ) * 12 = ((12000:ℤ):ℚ)/100 from by norm_num]
  rw [pyRound2_eq_self rfl]
  norm_num

/-! ### The claims -/

/-- Claim C2: on the worked example (brisket, 10 lbs at 3.50/lb, 0.5 lb
servings, 8 hours, 20-dollar 40 lb pellet bag at 1.5 lbs/hour, seasoning 5,
misc 2, markup 2, tax 11), `smoking_cost` reports 12 servings, pellet cost
9, meat cost 35, total cost 51, cost per serving 4.25, menu price 10,
taxable base 9.01, tax portion 0.99 and full-batch price 120. -/
theorem C2_worked_example :
    (smoking_cost exampleInput).servings_int = 12 ∧
    (smoking_cost exampleInput).pellet_cost_out = 9 ∧
    (smoking_cost exampleInput).meat_cost_out = 35 ∧
    (smoking_cost exampleInput).total_cost_out = 51 ∧
    (smoking_cost exampleInput).cost_per_serving_out = 4.25 ∧
    (smoking_cost exampleInput).menu_price_out = 10 ∧
    true_taxable_base exampleInput = 9.01 ∧
    (smoking_cost exampleInput).tax_portion_out = 0.99 ∧
    (smoking_cost exampleInput).full_menu_price = 120 := by
  refine ⟨?s, ?pc, ?mc, ?tc, ?cps, ?mp, ?tb, ?tp, ?fb⟩
  case s =>
    show pyInt (servings exampleInput) = 12
    rw [ex_servings, pyInt_of_nonneg (by norm_num)]
    norm_num
  case pc =>
    show pyRound2 (pellet_cost exampleInput) = 9
    rw [ex_pellet_cost,
      pyRound2_eq_self (show (9:ℚ) = ((900:ℤ):ℚ)/100 from by norm_num)]
  case mc =>
    show pyRound2 (meat_cost exampleInput) = 35
    rw [ex_meat_cost,
      pyRound2_eq_self (show (35:ℚ) = ((3500:ℤ):ℚ)/100 from by norm_num)]
  case tc =>
    show pyRound2 (total_cost exampleInput) = 51
    rw [ex_total,
      pyRound2_eq_self (show (51:ℚ) = ((5100:ℤ):ℚ)/100 from by norm_num)]
  case cps =>
    show pyRound2 (cost_per_serving exampleInput) = 4.25
    rw [ex_cps,
      pyRound2_eq_self (show (17:ℚ)/4 = ((425:ℤ):ℚ)/100 from by norm_num)]
    norm_num
  case mp => exact ex_menu
  case tb => rw [ex_base]; norm_num
  case tp =>
    show true_tax_portion exampleInput = 0.99
    rw [ex_portion]; norm_num
  case fb => exact ex_full

/-- Claim C3: the reconciled taxable base and tax portion always add back
to the rounded menu price, within 0.01; in exact arithmetic the identity
holds exactly, for every input. -/
theorem C3_tax_reconciliation (i : SmokingInput) :
    |true_taxable_base i + true_tax_portion i - (menu_price i : ℚ)| ≤ 1/100 := by
  have hb : true_taxable_base i =
      ((pyRoundInt ((menu_price i : ℚ) / tax_multiplier i * 100) : ℤ) : ℚ) / 100 := rfl
  have hd : (menu_price i : ℚ) - true_taxable_base i =
      ((100 * menu_price i - pyRoundInt ((menu_price i : ℚ) / tax_multiplier i * 100) : ℤ) : ℚ) / 100 := by
    rw [hb]; push_cast; ring
  have hp : true_tax_portion i = (menu_price i : ℚ) - true_taxable_base i :=
    pyRound2_eq_self hd
  rw [hp]
  simp

/-- Witness for C3 at the worked example: the reconciled 9.01 and 0.99 add
back to the menu price 10 within 0.01. -/
theorem C3_tax_reconciliation_witness :
    |true_taxable_base exampleInput + true_tax_portion exampleInput
      - (menu_price exampleInput : ℚ)| ≤ 1/100 :=
  C3_tax_reconciliation exampleInput

/-- Claim C4: the menu price field is the ceiling of the pre-rounding
price, and never lies below it. -/
theorem C4_menu_price_ceiling (i : SmokingInput) :
    (smoking_cost i).menu_price_out = ⌈menu_price_pre_round i⌉ ∧
    menu_price_pre_round i ≤ ((smoking_cost i).menu_price_out : ℚ) :=
  ⟨rfl, Int.le_ceil _⟩

/-- Claim C5: a zero serving size or a zero cooked weight collapses the
servings and the cost per serving (both the raw quantities and the
reported fields) to 0 instead of failing. -/
theorem C5_degenerate_zero (i : SmokingInput)
    (h : i.serving_size_lbs = 0 ∨ cooked_meat_lbs i = 0) :
    servings i = 0 ∧ cost_per_serving i = 0 ∧
    (smoking_cost i).servings_int = 0 ∧
    (smoking_cost i).cost_per_serving_out = 0 := by
  have hs : servings i = 0 := by
    rcases h with h | h
    · rw [servings, if_neg]
      rw [h]
      exact lt_irrefl 0
    · rw [servings]
      split_ifs with hss
      · rw [h, zero_div]
      · rfl
  have hc : cost_per_serving i = 0 := by
    rw [cost_per_serving, if_neg]
    rw [hs]
    exact lt_irrefl 0
  refine ⟨hs, hc, ?f1, ?f2⟩
  case f1 =>
    show pyInt (servings i) = 0
    rw [hs, pyInt_of_nonneg le_rfl, Int.floor_zero]
  case f2 =>
    show pyRound2 (cost_per_serving i) = 0
    rw [hc, pyRound2_eq_self (show (0:ℚ) = ((0:ℤ):ℚ)/100 from by norm_num)]

/-- The worked example with serving size set to zero. -/
def zeroServingInput : SmokingInput :=
  { exampleInput with serving_size_lbs := 0 }

/-- Witness for C5: with serving size 0 the servings and cost per serving
all collapse to 0. -/
theorem C5_degenerate_zero_witness :
    (zeroServingInput.serving_size_lbs = 0 ∨ cooked_meat_lbs zeroServingInput = 0) ∧
    (servings zeroServingInput = 0 ∧ cost_per_serving zeroServingInput = 0 ∧
     (smoking_cost zeroServingInput).servings_int = 0 ∧
     (smoking_cost zeroServingInput).cost_per_serving_out = 0) :=
  ⟨Or.inl rfl, C5_degenerate_zero zeroServingInput (Or.inl rfl)⟩

/-- Claim C6: the yield lookup is total over strings and case-insensitive
(it depends only on the lowercased string), maps the ten known categories
to their fixed fractions, returns 0.70 on every unrecognized string, and
always produces a value in the interval (0, 1]. -/
theorem C6_yield_table :
    (∀ s t : String, pyLower s = pyLower t →
      get_default_yield s = get_default_yield t) ∧
    get_default_yield "brisket" = 0.60 ∧
    get_default_yield "pork butt" = 0.67 ∧
    get_default_yield "pork shoulder" = 0.67 ∧
    get_default_yield "ribs" = 0.65 ∧
    get_default_yield "beef ribs" = 0.60 ∧
    get_default_yield "pork ribs" = 0.65 ∧
    get_default_yield "chicken" = 0.78 ∧
    get_default_yield "turkey" = 0.72 ∧
    get_default_yield "tri-tip" = 0.80 ∧
    get_default_yield "sausage" = 0.90 ∧
    (∀ s : String, pyLower s ∉ (["brisket", "pork butt", "pork shoulder",
      "ribs", "beef ribs", "pork ribs", "chicken", "turkey", "tri-tip",
      "sausage"] : List String) → get_default_yield s = 0.70) ∧
    (∀ s : String, 0 < get_default_yield s ∧ get_default_yield s ≤ 1) := by
  refine ⟨?ci, ?v1, ?v2, ?v3, ?v4, ?v5, ?v6, ?v7, ?v8, ?v9, ?v10, ?fb, ?rg⟩
  case ci =>
    intro s t h
    simp only [get_default_yield, h]
  case v1 =>
    have h : pyLower "brisket" = "brisket" := by decide
    simp [get_default_yield, h]
    norm_num
  case v2 =>
    have h : pyLower "pork butt" = "pork butt" := by decide
    simp [get_default_yield, h]
    norm_num
  case v3 =>
    have h : pyLower "pork shoulder" = "pork shoulder" := by decide
    simp [get_default_yield, h]
    norm_num
  case v4 =>
    have h : pyLower "ribs" = "ribs" := by decide
    simp [get_default_yield, h]
    norm_num
  case v5 =>
    have h : pyLower "beef ribs" = "beef ribs" := by decide
    simp [get_default_yield, h]
    norm_num
  case v6 =>
    have h : pyLower "pork ribs" = "pork ribs" := by decide
    simp [get_default_yield, h]
    norm_num
  case v7 =>
    have h : pyLower "chicken" = "chicken" := by decide
    simp [get_default_yield, h]
    norm_num
  case v8 =>
    have h : pyLower "turkey" = "turkey" := by decide
    simp [get_default_yield, h]
    norm_num
  case v9 =>
    have h : pyLower "tri-tip" = "tri-tip" := by decide
    simp [get_default_yield, h]
    norm_num
  case v10 =>
    have h : pyLower "sausage" = "sausage" := by decide
    simp [get_default_yield, h]
    norm_num
  case fb =>
    intro s hm
    simp only [List.mem_cons, List.mem_singleton, not_or] at hm
    obtain ⟨h1, h2, h3, h4, h5, h6, h7, h8, h9, h10, -⟩ := hm
    simp only [get_default_yield]
    rw [if_neg h1, if_neg h2, if_neg h3, if_neg h4, if_neg h5, if_neg h6,
      if_neg h7, if_neg h8, if_neg h9, if_neg h10]
    norm_num
  case rg =>
    intro s
    dsimp only [get_default_yield]
    split_ifs <;> norm_num

/-- Witness for C6 at concrete strings: a differently-cased known category
agrees with its lowercase form, and an unknown category falls back
to 0.70. -/
theorem C6_yield_table_witness :
    get_default_yield "BrIsKeT" = get_default_yield "brisket" ∧
    get_default_yield "Wagyu" = 0.70 := by
  obtain ⟨hci, -, -, -, -, -, -, -, -, -, -, hfb, -⟩ := C6_yield_table
  exact ⟨hci "BrIsKeT" "brisket" (by decide), hfb "Wagyu" (by decide)⟩

/-- Claim C7: with all other inputs fixed, raising the markup multiplier
never lowers the menu price. -/
theorem C7_menu_price_monotone_markup (i : SmokingInput) (a b : ℚ)
    (ha : ValidInput { i with markup_multiplier := a })
    (_hb : ValidInput { i with markup_multiplier := b })
    (hab : a ≤ b) :
    menu_price { i with markup_multiplier := a } ≤
      menu_price { i with markup_multiplier := b } := by
  obtain ⟨hraw, hprice, hss, hhrs, hbc, hbw, hup, hsea, hmisc, hmk, htax⟩ := ha
  have hcps : 0 ≤ cost_per_serving i := by
    rw [cost_per_serving]
    split_ifs with h
    · refine div_nonneg ?tn (le_of_lt h)
      have hm : 0 ≤ meat_cost i := mul_nonneg (le_of_lt hraw) hprice
      have hu : 0 ≤ pellet_used_lbs i :=
        mul_nonneg (le_of_lt hhrs) (le_of_lt hup)
      have hppl : 0 ≤ pellet_price_per_lb i :=
        div_nonneg (le_of_lt hbc) (le_of_lt hbw)
      have he : 0 ≤ electricity_cost i := by
        rw [electricity_cost]; positivity
      have hp : 0 ≤ pellet_cost i :=
        add_nonneg (mul_nonneg hu hppl) he
      rw [total_cost]
      have hsea2 : (0:ℚ) ≤ i.seasoning_cost := hsea
      have hmisc2 : (0:ℚ) ≤ i.misc_cost := hmisc
      linarith
    · exact le_refl 0
  have htm : 0 ≤ tax_multiplier i := by
    rw [tax_multiplier]
    have : (0:ℚ) ≤ i.tax_rate / 100 := div_nonneg htax (by norm_num)
    linarith
  show ⌈menu_price_pre_round { i with markup_multiplier := a }⌉ ≤
    ⌈menu_price_pre_round { i with markup_multiplier := b }⌉
  apply Int.ceil_le_ceil
  show retail_price_per_serving { i with markup_multiplier := a }
      * tax_multiplier { i with markup_multiplier := a } ≤
    retail_price_per_serving { i with markup_multiplier := b }
      * tax_multiplier { i with markup_multiplier := b }
  have h1 : retail_price_per_serving { i with markup_multiplier := a }
      = cost_per_serving i * a := rfl
  have h2 : retail_price_per_serving { i with markup_multiplier := b }
      = cost_per_serving i * b := rfl
  have h3 : tax_multiplier { i with markup_multiplier := a } = tax_multiplier i := rfl
  have h4 : tax_multiplier { i with markup_multiplier := b } = tax_multiplier i := rfl
  rw [h1, h2, h3, h4]
  exact mul_le_mul_of_nonneg_right (mul_le_mul_of_nonneg_left hab hcps) htm

/-- Witness for C7: on the worked example, markup 2 gives a menu price no
larger than markup 3 does. -/
theorem C7_menu_price_monotone_markup_witness :
    ValidInput { exampleInput with markup_multiplier := 2 } ∧
    ValidInput { exampleInput with markup_multiplier := 3 } ∧ (2:ℚ) ≤ 3 ∧
    menu_price { exampleInput with markup_multiplier := 2 } ≤
      menu_price { exampleInput with markup_multiplier := 3 } := by
  have ha : ValidInput { exampleInput with markup_multiplier := 2 } := by
    refine ⟨?a1, ?a2, ?a3, ?a4, ?a5, ?a6, ?a7, ?a8, ?a9, ?a10, ?a11⟩ <;>
      norm_num [exampleInput]
  have hb : ValidInput { exampleInput with markup_multiplier := 3 } := by
    refine ⟨?b1, ?b2, ?b3, ?b4, ?b5, ?b6, ?b7, ?b8, ?b9, ?b10, ?b11⟩ <;>
      norm_num [exampleInput]
  exact ⟨ha, hb, by norm_num,
    C7_menu_price_monotone_markup exampleInput 2 3 ha hb (by norm_num)⟩

/-- Claim C8: on the documented input domain no division in
`smoking_cost` can fail: the strict, division-checked variant succeeds and
returns exactly the result of the total function. -/
theorem C8_never_raises (i : SmokingInput) (h : ValidInput i) :
    smoking_cost_checked i = some (smoking_cost i) := by
  obtain ⟨hraw, hprice, hss, hhrs, hbc, hbw, hup, hsea, hmisc, hmk, htax⟩ := h
  have hbw0 : i.pellet_bag_weight ≠ 0 := ne_of_gt hbw
  have ht0 : (1:ℚ) + i.tax_rate / 100 ≠ 0 := by
    have : (0:ℚ) ≤ i.tax_rate / 100 := div_nonneg htax (by norm_num)
    intro hc
    linarith
  rw [smoking_cost_checked]
  simp only [checkedDiv, if_neg hbw0, if_neg ht0, Option.some_bind]
  by_cases hsp : 0 < i.serving_size_lbs
  · rw [if_pos hsp, if_neg (ne_of_gt hsp), Option.some_bind]
    by_cases hsv : 0 < i.raw_meat_weight_lbs * get_default_yield i.meat_type / i.serving_size_lbs
    · rw [if_pos hsv, if_neg (ne_of_gt hsv), Option.some_bind]
      rw [smoking_cost]
      simp only [Option.some.injEq]
      congr 1 <;>
        simp [servings, cost_per_serving, cooked_meat_lbs, cook_yield,
          total_cost, meat_cost, pellet_cost, pellet_used_lbs,
          pellet_price_per_lb, electricity_cost, true_tax_portion,
          true_taxable_base, menu_price, menu_price_pre_round,
          retail_price_per_serving, tax_multiplier, if_pos hsp, if_pos hsv]
    · rw [if_neg hsv, Option.some_bind]
      rw [smoking_cost]
      simp only [Option.some.injEq]
      congr 1 <;>
        simp [servings, cost_per_serving, cooked_meat_lbs, cook_yield,
          total_cost, meat_cost, pellet_cost, pellet_used_lbs,
          pellet_price_per_lb, electricity_cost, true_tax_portion,
          true_taxable_base, menu_price, menu_price_pre_round,
          retail_price_per_serving, tax_multiplier, if_pos hsp, if_neg hsv]
  · rw [if_neg hsp, Option.some_bind]
    rw [if_neg (by norm_num : ¬ (0:ℚ) < 0), Option.some_bind]
    rw [smoking_cost]
    simp only [Option.some.injEq]
    congr 1 <;>
      simp [servings, cost_per_serving, cooked_meat_lbs, cook_yield,
        total_cost, meat_cost, pellet_cost, pellet_used_lbs,
        pellet_price_per_lb, electricity_cost, true_tax_portion,
        true_taxable_base, menu_price, menu_price_pre_round,
        retail_price_per_serving, tax_multiplier, if_neg hsp]

/-- Witness for C8: on the worked example the checked computation succeeds
with the same result. -/
theorem C8_never_raises_witness :
    ValidInput exampleInput ∧
    smoking_cost_checked exampleInput = some (smoking_cost exampleInput) := by
  have hv : ValidInput exampleInput := by
    refine ⟨?a1, ?a2, ?a3, ?a4, ?a5, ?a6, ?a7, ?a8, ?a9, ?a10, ?a11⟩ <;>
      norm_num [exampleInput]
  exact ⟨hv, C8_never_raises exampleInput hv⟩

/-- A valid input whose servings quotient (1.2) is not an integer:
brisket, 1 lb raw at price 0, half-pound servings, one hour on a
1-dollar-per-pound bag at 1 lb/hour, no seasoning or misc cost,
markup 1, tax 0. -/
def fracServingInput : SmokingInput where
  meat_type := "brisket"
  raw_meat_weight_lbs := 1
  meat_price_per_lb := 0
  serving_size_lbs := 1/2
  smoking_hours := 1
  pellet_bag_cost := 1
  pellet_bag_weight := 1
  pellet_usage_per_hour_lb := 1
  seasoning_cost := 0
  misc_cost := 0
  markup_multiplier := 1
  tax_rate := 0

theorem fracServing_valid : ValidInput fracServingInput := by
  refine ⟨?a1, ?a2, ?a3, ?a4, ?a5, ?a6, ?a7, ?a8, ?a9, ?a10, ?a11⟩ <;>
    norm_num [fracServingInput]

theorem fracServing_servings : servings fracServingInput = 6/5 := by
  rw [servings, if_pos (by norm_num [fracServingInput])]
  rw [cooked_meat_lbs, cook_yield]
  simp only [fracServingInput]
  rw [yield_brisket]
  norm_num

theorem fracServing_total : total_cost fracServingInput = 5/4 := by
  norm_num [total_cost, meat_cost, pellet_cost, pellet_used_lbs,
    pellet_price_per_lb, electricity_cost, fracServingInput]

theorem fracServing_cps : cost_per_serving fracServingInput = 25/24 := by
  rw [cost_per_serving, if_pos (by rw [fracServing_servings]; norm_num),
    fracServing_servings, fracServing_total]
  norm_num

theorem fracServing_menu : menu_price fracServingInput = 2 := by
  rw [menu_price, menu_price_pre_round, retail_price_per_serving,
    fracServing_cps, tax_multiplier]
  rw [show (25:ℚ)/24 * fracServingInput.markup_multiplier
        * (1 + fracServingInput.tax_rate/100) = 25/24 from by
        norm_num [fracServingInput]]
  exact ceil_eval (by norm_num) (by norm_num)

/-- Counterexample to claim C1: on `fracServingInput` the full-batch field
is 2.40 (menu price 2 times the real-valued quotient 1.2), not menu price
times the truncated servings count 1, which would give 2. -/
theorem C1_counterexample :
    ValidInput fracServingInput ∧
    (smoking_cost fracServingInput).full_menu_price ≠
      ((smoking_cost fracServingInput).menu_price_out : ℚ) *
        ((smoking_cost fracServingInput).servings_int : ℚ) := by
  refine ⟨fracServing_valid, ?ne⟩
  have hfull : (smoking_cost fracServingInput).full_menu_price = 12/5 := by
    show pyRound2 ((menu_price fracServingInput : ℚ) * servings fracServingInput) = 12/5
    rw [fracServing_menu, fracServing_servings]
    rw [show ((2:ℤ):ℚ) * (6/5) = ((240:ℤ):ℚ)/100 from by norm_num]
    rw [pyRound2_eq_self rfl]
    norm_num
  have hint : (smoking_cost fracServingInput).servings_int = 1 := by
    show pyInt (servings fracServingInput) = 1
    rw [fracServing_servings, pyInt_of_nonneg (by norm_num)]
    norm_num
  have hmenu : (smoking_cost fracServingInput).menu_price_out = 2 :=
    fracServing_menu
  rw [hfull, hint, hmenu]
  norm_num

/-- Claim C1 as amended: the full-batch menu price field is
`round(menu_price * servings, 2)` where `servings` is the real-valued
quotient cooked weight / serving size, not its integer truncation. -/
theorem C1_full_batch_uses_real_servings (i : SmokingInput)
    (h : 0 < i.serving_size_lbs) :
    (smoking_cost i).full_menu_price =
      pyRound2 (((smoking_cost i).menu_price_out : ℚ) *
        (cooked_meat_lbs i / i.serving_size_lbs)) := by
  show pyRound2 ((menu_price i : ℚ) * servings i) = _
  rw [servings, if_pos h]
  rfl

/-- Witness for the amended C1 at the worked example. -/
theorem C1_full_batch_uses_real_servings_witness :
    0 < exampleInput.serving_size_lbs ∧
    (smoking_cost exampleInput).full_menu_price =
      pyRound2 (((smoking_cost exampleInput).menu_price_out : ℚ) *
        (cooked_meat_lbs exampleInput / exampleInput.serving_size_lbs)) :=
  ⟨by norm_num [exampleInput],
    C1_full_batch_uses_real_servings exampleInput (by norm_num [exampleInput])⟩

/-- The worked example with the tax rate replaced by 11.25 percent, a
value with more than one decimal place. -/
def quarterTaxInput : SmokingInput :=
  { exampleInput with tax_rate := 11.25 }

/-- Counterexample to claim C9: the tax-rate field of the result is passed
through unrounded, so at tax rate 11.25 it is not a one-decimal value
(rounding it to one decimal would give 11.2). -/
theorem C9_counterexample :
    ValidInput quarterTaxInput ∧
    pyRound1 ((smoking_cost quarterTaxInput).tax_rate_out) ≠
      (smoking_cost quarterTaxInput).tax_rate_out := by
  constructor
  · refine ⟨?a1, ?a2, ?a3, ?a4, ?a5, ?a6, ?a7, ?a8, ?a9, ?a10, ?a11⟩ <;>
      norm_num [quarterTaxInput, exampleInput]
  · show pyRound1 quarterTaxInput.tax_rate ≠ quarterTaxInput.tax_rate
    have hrate : quarterTaxInput.tax_rate = 45/4 := by
      norm_num [quarterTaxInput]
    rw [hrate, pyRound1, show (45:ℚ)/4 * 10 = 225/2 from by norm_num]
    rw [pyRoundInt_tie_even (show (⌊(225:ℚ)/2⌋ : ℤ) = 112 from by norm_num)
      (by norm_num) (by decide)]
    norm_num

/-- Claim C9 as amended: every currency field of the result is a
two-decimal value (it is fixed by `round(., 2)`), the yield percentage is
a one-decimal value, the menu price and servings fields are integers
(by construction), but the tax-rate field is reported exactly as supplied,
unrounded. -/
theorem C9_result_rounding (i : SmokingInput) :
    pyRound2 ((smoking_cost i).cooked_weight) = (smoking_cost i).cooked_weight ∧
    pyRound2 ((smoking_cost i).meat_cost_out) = (smoking_cost i).meat_cost_out ∧
    pyRound2 ((smoking_cost i).pellet_used_out) = (smoking_cost i).pellet_used_out ∧
    pyRound2 ((smoking_cost i).pellet_cost_out) = (smoking_cost i).pellet_cost_out ∧
    pyRound2 ((smoking_cost i).total_cost_out) = (smoking_cost i).total_cost_out ∧
    pyRound2 ((smoking_cost i).cost_per_serving_out) = (smoking_cost i).cost_per_serving_out ∧
    pyRound2 ((smoking_cost i).full_menu_price) = (smoking_cost i).full_menu_price ∧
    pyRound2 ((smoking_cost i).tax_portion_out) = (smoking_cost i).tax_portion_out ∧
    pyRound1 ((smoking_cost i).yield_pct) = (smoking_cost i).yield_pct ∧
    (smoking_cost i).menu_price_out = menu_price i ∧
    (smoking_cost i).servings_int = pyInt (servings i) ∧
    (smoking_cost i).tax_rate_out = i.tax_rate :=
  ⟨pyRound2_idem _, pyRound2_idem _, pyRound2_idem _, pyRound2_idem _,
    pyRound2_idem _, pyRound2_idem _, pyRound2_idem _, pyRound2_idem _,
    pyRound1_idem _, rfl, rfl, rfl⟩

/-- A valid input whose cooked weight (0.3 lbs) is positive but below the
serving size (0.5 lbs): half a pound of brisket at price 0, one hour on a
1-dollar-per-pound bag at 1 lb/hour, markup 1, tax 0. -/
def subServingInput : SmokingInput where
  meat_type := "brisket"
  raw_meat_weight_lbs := 1/2
  meat_price_per_lb := 0
  serving_size_lbs := 1/2
  smoking_hours := 1
  pellet_bag_cost := 1
  pellet_bag_weight := 1
  pellet_usage_per_hour_lb := 1
  seasoning_cost := 0
  misc_cost := 0
  markup_multiplier := 1
  tax_rate := 0

theorem subServing_servings : servings subServingInput = 3/5 := by
  rw [servings, if_pos (by norm_num [subServingInput])]
  rw [cooked_meat_lbs, cook_yield]
  simp only [subServingInput]
  rw [yield_brisket]
  norm_num

theorem subServing_cps : cost_per_serving subServingInput = 25/12 := by
  have ht : total_cost subServingInput = 5/4 := by
    norm_num [total_cost, meat_cost, pellet_cost, pellet_used_lbs,
      pellet_price_per_lb, electricity_cost, subServingInput]
  rw [cost_per_serving, if_pos (by rw [subServing_servings]; norm_num),
    subServing_servings, ht]
  norm_num

theorem subServing_menu : menu_price subServingInput = 3 := by
  rw [menu_price, menu_price_pre_round, retail_price_per_serving,
    subServing_cps, tax_multiplier]
  rw [show (25:ℚ)/12 * subServingInput.markup_multiplier
        * (1 + subServingInput.tax_rate/100) = 25/12 from by
        norm_num [subServingInput]]
  exact ceil_eval (by norm_num) (by norm_num)

/-- Claim C10: there is a valid input with positive cooked weight smaller
than the serving size on which the reported integer servings is 0 while
the cost per serving, menu price and full-batch price fields are all
strictly positive. -/
theorem C10_zero_servings_positive_price :
    ValidInput subServingInput ∧
    0 < cooked_meat_lbs subServingInput ∧
    cooked_meat_lbs subServingInput < subServingInput.serving_size_lbs ∧
    (smoking_cost subServingInput).servings_int = 0 ∧
    0 < (smoking_cost subServingInput).cost_per_serving_out ∧
    0 < (smoking_cost subServingInput).menu_price_out ∧
    0 < (smoking_cost subServingInput).full_menu_price := by
  have hcook : cooked_meat_lbs subServingInput = 3/10 := by
    rw [cooked_meat_lbs, cook_yield]
    simp only [subServingInput]
    rw [yield_brisket]
    norm_num
  refine ⟨?v, ?c1, ?c2, ?c3, ?c4, ?c5, ?c6⟩
  case v =>
    refine ⟨?a1, ?a2, ?a3, ?a4, ?a5, ?a6, ?a7, ?a8, ?a9, ?a10, ?a11⟩ <;>
      norm_num [subServingInput]
  case c1 => rw [hcook]; norm_num
  case c2 => rw [hcook]; norm_num [subServingInput]
  case c3 =>
    show pyInt (servings subServingInput) = 0
    rw [subServing_servings, pyInt_of_nonneg (by norm_num)]
    norm_num
  case c4 =>
    show 0 < pyRound2 (cost_per_serving subServingInput)
    rw [subServing_cps, pyRound2, show (25:ℚ)/12 * 100 = 625/3 from by norm_num]
    rw [pyRoundInt_low (show (⌊(625:ℚ)/3⌋ : ℤ) = 208 from by norm_num)
      (by norm_num)]
    norm_num
  case c5 =>
    show 0 < menu_price subServingInput
    rw [subServing_menu]
    norm_num
  case c6 =>
    show 0 < pyRound2 ((menu_price subServingInput : ℚ) * servings subServingInput)
    rw [subServing_menu, subServing_servings]
    rw [show ((3:ℤ):ℚ) * (3/5) = ((180:ℤ):ℚ)/100 from by norm_num]
    rw [pyRound2_eq_self rfl]
    norm_num

end SmokeCalc
